import Mathlib

/-!
Shallow embedding of the CORD-19 data-explorer application (`app.py`).

A pandas DataFrame is modelled as a `Frame`: an explicit list of column
names together with a list of rows.  A cell that pandas would hold as
NaN/NaT is modelled as `none`; a column that is absent from the file is
recorded by its name being absent from `Frame.cols` (the code only reads
a cell after checking, or implicitly relying on, column presence).
External effects are parameters: the filesystem is a predicate on paths,
`pd.read_csv` is a fallible function, and `pd.to_datetime`'s per-cell
year extraction is a function `String → Option Int` (NaT ↦ `none`).
-/

/-- One record of the dataset.  Each field is one of the columns the
application ever reads; `none` models a NaN/NaT cell. -/
structure Row where
  title : Option String := none
  authors : Option String := none
  journal : Option String := none
  publish_time : Option String := none
  publication_year : Option Int := none
  abstract : Option String := none
  title_word_count : Option Int := none
  abstract_word_count : Option Int := none
deriving DecidableEq, Repr

/-- A DataFrame: the list of column names present in the file plus the rows. -/
structure Frame where
  cols : List String
  rows : List Row
deriving DecidableEq, Repr

/-! ## Data loader (`load_data`, app.py lines 35-85) -/

/-- `Path.home() / "Desktop" / "cleaned_cord19_data.csv"`. -/
def desktopPath (home : String) : String :=
  home ++ "/Desktop/cleaned_cord19_data.csv"

/-- `Path.cwd() / "cleaned_cord19_data.csv"`. -/
def cwdPath (cwd : String) : String :=
  cwd ++ "/cleaned_cord19_data.csv"

/-- `Path.home() / "Documents" / "cleaned_cord19_data.csv"`. -/
def documentsPath (home : String) : String :=
  home ++ "/Documents/cleaned_cord19_data.csv"

/-- The `possible_paths` list of `load_data`, in source order. -/
def possiblePaths (home cwd : String) : List String :=
  [desktopPath home, cwdPath cwd, documentsPath home]

/-- The path-discovery loop of `load_data`: the first candidate path that
exists (`ex` is the filesystem's `Path.exists`). -/
def findDataFile (ex : String → Bool) (home cwd : String) : Option String :=
  (possiblePaths home cwd).find? ex

/-- `required_columns = ['title', 'journal', 'abstract']`. -/
def requiredColumns : List String := ["title", "journal", "abstract"]

/-- Adding a derived column: pandas `df[c] = ...` appends column `c` unless
it is already present (in which case the values are overwritten in place). -/
def addCol (cs : List String) (c : String) : List String :=
  if c ∈ cs then cs else cs ++ [c]

/-- Per-row year derivation,
`pd.to_datetime(x, errors='coerce').year` then `.fillna(2020)`:
an absent `publish_time` cell or a failed parse (both NaT) yield 2020. -/
def deriveYear (parse : String → Option Int) (pt : Option String) : Int :=
  match pt.bind parse with
  | some y => y
  | none => 2020

/-- The `if 'publish_time' in df.columns:` block of `load_data`:
derive `publication_year` from `publish_time` row by row. -/
def convertDates (parse : String → Option Int) (f : Frame) : Frame :=
  if "publish_time" ∈ f.cols then
    { cols := addCol f.cols "publication_year",
      rows := f.rows.map
        (fun r => { r with publication_year := some (deriveYear parse r.publish_time) }) }
  else f

/-- Python `str(x)` applied to a cell: NaN stringifies to the literal "nan". -/
def pyStr : Option String → String
  | none => "nan"
  | some s => s

/-- Helper for `countTokens`: scans the characters left to right, counting
a token at each transition from whitespace (or the start) into a
non-whitespace character. -/
def countTokensAux : Bool → List Char → Nat
  | _, [] => 0
  | inWord, c :: cs =>
    if c.isWhitespace then countTokensAux false cs
    else if inWord then countTokensAux true cs else countTokensAux true cs + 1

/-- Python `len(s.split())`: `str.split()` with no separator splits on runs
of whitespace and drops empty strings, so the length is the number of
maximal non-whitespace runs. -/
def countTokens (s : String) : Nat :=
  countTokensAux false s.data

/-- `if 'title_word_count' not in df.columns: df['title_word_count'] = ...`. -/
def addTitleCounts (f : Frame) : Frame :=
  if "title_word_count" ∈ f.cols then f
  else
    { cols := addCol f.cols "title_word_count",
      rows := f.rows.map
        (fun r => { r with title_word_count := some (Int.ofNat (countTokens (pyStr r.title))) }) }

/-- `if 'abstract_word_count' not in df.columns: df['abstract_word_count'] = ...`. -/
def addAbstractCounts (f : Frame) : Frame :=
  if "abstract_word_count" ∈ f.cols then f
  else
    { cols := addCol f.cols "abstract_word_count",
      rows := f.rows.map
        (fun r => { r with abstract_word_count := some (Int.ofNat (countTokens (pyStr r.abstract))) }) }

/-- The validation/derivation part of `load_data` after the file is parsed
(lines 57-81): reject an empty frame, derive the year column, reject a frame
missing a required column, derive absent word-count columns. -/
def processFrame (parse : String → Option Int) (f : Frame) : Option Frame :=
  if f.rows.isEmpty then none
  else
    let f1 := convertDates parse f
    if requiredColumns.all (fun c => decide (c ∈ f1.cols)) then
      some (addAbstractCounts (addTitleCounts f1))
    else none

/-- The whole of `load_data`: locate a candidate file, parse it (`readCsv`
models `pd.read_csv`; an `Except.error` is a raised exception, caught by the
surrounding `try`/`except` and converted to `None`), then validate/derive. -/
def loadData (ex : String → Bool) (readCsv : String → Except String Frame)
    (parse : String → Option Int) (home cwd : String) : Option Frame :=
  match findDataFile ex home cwd with
  | none => none
  | some p =>
    match readCsv p with
    | Except.error _ => none
    | Except.ok df => processFrame parse df

/-- `create_demo_data()`: the fixed 3-record fallback dataset. -/
def createDemoData : Frame :=
  { cols := ["title", "authors", "journal", "publication_year",
             "abstract", "title_word_count", "abstract_word_count"],
    rows :=
      [ { title := some "COVID-19 Vaccine Efficacy Study",
          authors := some "Smith et al.",
          journal := some "Medical Journal",
          publication_year := some 2020,
          abstract := some "Study of vaccine effectiveness",
          title_word_count := some 4,
          abstract_word_count := some 3 },
        { title := some "Pandemic Response Analysis",
          authors := some "Johnson et al.",
          journal := some "Health Review",
          publication_year := some 2021,
          abstract := some "Analysis of pandemic response",
          title_word_count := some 3,
          abstract_word_count := some 4 },
        { title := some "Virus Transmission Patterns",
          authors := some "Williams et al.",
          journal := some "Science Today",
          publication_year := some 2022,
          abstract := some "Patterns of virus transmission",
          title_word_count := some 3,
          abstract_word_count := some 4 } ] }

/-- `main`'s working dataset: the loaded frame, or the demo data when
`load_data` returned `None` (app.py lines 107-118). -/
def mainDataFrame (ex : String → Bool) (readCsv : String → Except String Frame)
    (parse : String → Option Int) (home cwd : String) : Frame :=
  (loadData ex readCsv parse home cwd).getD createDemoData

/-! ## Filter controller (`main`, app.py lines 129-150) -/

/-- `df['publication_year'].between(lo, hi)`: inclusive on both ends, and
false on a NaN cell (any comparison with NaN is false in pandas). -/
def betweenYear (r : Row) (lo hi : Int) : Bool :=
  match r.publication_year with
  | some y => decide (lo ≤ y ∧ y ≤ hi)
  | none => false

/-- The filter application of `main`: first restrict to the year range, then,
unless the `'All Journals'` sentinel is selected, restrict to the rows whose
journal equals the selected name (a NaN journal equals nothing). -/
def filterData (f : Frame) (lo hi : Int) (sel : String) : Frame :=
  let f1 : Frame := { cols := f.cols, rows := f.rows.filter (fun r => betweenYear r lo hi) }
  if sel ≠ "All Journals" then
    { cols := f1.cols, rows := f1.rows.filter (fun r => decide (r.journal = some sel)) }
  else f1

/-- Insertion step of Python's `sorted` on strings (stable, ascending). -/
def insertSorted (x : String) : List String → List String
  | [] => [x]
  | y :: ys => if x < y then x :: y :: ys else y :: insertSorted x ys

/-- Python `sorted` on a list of strings, as an insertion sort. -/
def sortStrings : List String → List String
  | [] => []
  | x :: xs => insertSorted x (sortStrings xs)

/-- The journal dropdown's option list:
`['All Journals'] + sorted([j for j in df['journal'].unique() if pd.notna(j)])`.
`unique()` keeps first occurrences; the comprehension drops NaN. -/
def journalOptions (f : Frame) : List String :=
  "All Journals" :: sortStrings ((f.rows.filterMap (fun r => r.journal)).dedup)

/-- Minimum of a list of integers (`none` on the empty list). -/
def listMinI : List Int → Option Int
  | [] => none
  | x :: xs =>
    match listMinI xs with
    | none => some x
    | some m => some (min x m)

/-- Maximum of a list of integers (`none` on the empty list). -/
def listMaxI : List Int → Option Int
  | [] => none
  | x :: xs =>
    match listMaxI xs with
    | none => some x
    | some m => some (max x m)

/-- `int(df['publication_year'].min())`: pandas `min` skips NaN cells;
`none` when no cell is numeric (in which case the source raises). -/
def minYearOf (f : Frame) : Option Int :=
  listMinI (f.rows.filterMap (fun r => r.publication_year))

/-- `int(df['publication_year'].max())`, skipping NaN cells likewise. -/
def maxYearOf (f : Frame) : Option Int :=
  listMaxI (f.rows.filterMap (fun r => r.publication_year))

/-! ## Metrics (`main`, app.py lines 156-177) -/

/-- `Series.mean()` over a column of cells: NaN cells are skipped
(pandas `skipna` default); the mean of no numeric cells is NaN (`none`). -/
def colMean (vals : List (Option Int)) : Option ℚ :=
  match vals.filterMap (fun v => v) with
  | [] => none
  | x :: xs => some (((((x :: xs).foldl (fun a b => a + b) 0 : Int)) : ℚ) / ((x :: xs).length : ℚ))

/-- `filtered_df['title_word_count'].mean()`. -/
def avgTitleWords (f : Frame) : Option ℚ :=
  colMean (f.rows.map (fun r => r.title_word_count))

/-- `filtered_df['abstract_word_count'].mean()`. -/
def avgAbstractWords (f : Frame) : Option ℚ :=
  colMean (f.rows.map (fun r => r.abstract_word_count))

/-- The rendering `f"{m:.1f}"` of the mean metric: the NaN mean of an empty
selection formats (without raising) as the placeholder string "nan"; a
present mean formats with one decimal digit (rounding modelled over ℚ). -/
def renderMean : Option ℚ → String
  | none => "nan"
  | some q =>
    let n : Int := round (q * 10)
    toString (n / 10) ++ "." ++ toString (n % 10).natAbs

/-! ## Data explorer tab: preview and CSV export (`main`, app.py lines 228-246) -/

/-- `display_columns = [c for c in ['title','authors','journal','publication_year'] if c in filtered_df.columns]`. -/
def displayColumnsOf (f : Frame) : List String :=
  ["title", "authors", "journal", "publication_year"].filter (fun c => decide (c ∈ f.cols))

/-- The first-20-rows table preview, `filtered_df[display_columns].head(20)`. -/
def previewRows (f : Frame) : List Row :=
  f.rows.take 20

/-- How `to_csv` writes one cell of a display column: a NaN cell becomes the
empty field, a string cell its text, a year its decimal numeral. -/
def rowCell (r : Row) (c : String) : String :=
  if c = "title" then (match r.title with | some s => s | none => "")
  else if c = "authors" then (match r.authors with | some s => s | none => "")
  else if c = "journal" then (match r.journal with | some s => s | none => "")
  else if c = "publication_year" then
    (match r.publication_year with | some y => toString y | none => "")
  else ""

/-- CSV field quoting: a field holding a comma, quote or line break is
wrapped in double quotes with inner quotes doubled. -/
def csvField (s : String) : String :=
  if s.toList.any (fun c => c == ',' || c == '"' || c == Char.ofNat 10 || c == Char.ofNat 13) then
    "\"" ++ String.join (s.toList.map (fun c => if c == '"' then "\"\"" else String.singleton c)) ++ "\""
  else s

/-- The header line of `to_csv(index=False)`: just the column names, with no
leading index field. -/
def csvHeader (f : Frame) : String :=
  String.intercalate "," ((displayColumnsOf f).map csvField)

/-- One data line of the export. -/
def csvLine (cols : List String) (r : Row) : String :=
  String.intercalate "," (cols.map (fun c => csvField (rowCell r c)))

/-- All lines of `filtered_df[display_columns].to_csv(index=False)`:
the header followed by one line per row of the whole frame. -/
def csvLinesOf (f : Frame) : List String :=
  csvHeader f :: f.rows.map (csvLine (displayColumnsOf f))

/-- The exported CSV text (lines joined by a line feed, trailing newline). -/
def csvOfFrame (f : Frame) : String :=
  String.intercalate "\n" (csvLinesOf f) ++ "\n"

/-- The payload handed to `st.download_button`. -/
structure Download where
  file_name : String
  mime : String
  payload : String
deriving DecidableEq, Repr

/-- The download action: `st.download_button(data=csv, file_name="filtered_cord19_data.csv", mime="text/csv")`. -/
def downloadButton (f : Frame) : Download :=
  { file_name := "filtered_cord19_data.csv", mime := "text/csv", payload := csvOfFrame f }

/-! ## Concrete frames and inputs used to instantiate the theorems -/

/-- The first record of the demo dataset. -/
def demoRow0 : Row :=
  { title := some "COVID-19 Vaccine Efficacy Study",
    authors := some "Smith et al.",
    journal := some "Medical Journal",
    publication_year := some 2020,
    abstract := some "Study of vaccine effectiveness",
    title_word_count := some 4,
    abstract_word_count := some 3 }

/-- A filesystem in which only the current-directory candidate file exists
(home and cwd both at `/h`). -/
def exW : String → Bool := fun s => s == "/h/cleaned_cord19_data.csv"

/-- A frame holding one record with a NaN journal and year 2020. -/
def rowC10 : Row :=
  { title := some "t", journal := none, abstract := some "a", publication_year := some 2020 }

/-- The frame around `rowC10`. -/
def frameC10 : Frame :=
  { cols := ["title", "journal", "abstract", "publication_year"], rows := [rowC10] }

/-- A parsed CSV whose columns pass validation but whose single record has a
NaN `journal` cell. -/
def frameC4 : Frame :=
  { cols := ["title", "journal", "abstract"],
    rows := [{ title := some "A Title", journal := none, abstract := some "An abstract" }] }

/-- What the loader derives from `frameC4`: word counts added, the NaN
journal retained. -/
def frameC4out : Frame :=
  { cols := ["title", "journal", "abstract", "title_word_count", "abstract_word_count"],
    rows := [{ title := some "A Title", journal := none, abstract := some "An abstract",
               title_word_count := some 2, abstract_word_count := some 2 }] }

/-- A loadable frame (all required and derived columns present, so the
loader returns it unchanged) with one NaN `publication_year` cell. -/
def frameC7 : Frame :=
  { cols := ["title", "journal", "abstract", "publication_year",
             "title_word_count", "abstract_word_count"],
    rows :=
      [ { title := some "Paper A", journal := some "J", abstract := some "x",
          publication_year := some 2020, title_word_count := some 2,
          abstract_word_count := some 1 },
        { title := some "Paper B", journal := some "J", abstract := some "y",
          publication_year := none, title_word_count := some 2,
          abstract_word_count := some 1 } ] }

/-- A loadable frame that carries a `publication_year` column but no
`publish_time` column, with year 1999. -/
def frameC9 : Frame :=
  { cols := ["title", "journal", "abstract", "publication_year",
             "title_word_count", "abstract_word_count"],
    rows :=
      [ { title := some "Paper C", journal := some "J", abstract := some "z",
          publication_year := some 1999, title_word_count := some 2,
          abstract_word_count := some 1 } ] }

/-- A filesystem on which no candidate path exists. -/
def exNone : String → Bool := fun _ => false

/-- A `pd.read_csv` that raises on every path. -/
def readCsv0 : String → Except String Frame := fun _ => Except.error "io error"

/-- A date parser for which every parse fails (every cell is NaT). -/
def parse0 : String → Option Int := fun _ => none

/-- A parsed CSV with a `publish_time` column, used to instantiate the
year-derivation theorem. -/
def frameC9w : Frame :=
  { cols := ["title", "journal", "abstract", "publish_time"],
    rows := [{ title := some "t", journal := some "J", abstract := some "a",
               publish_time := some "2021-05-01" }] }

/-- What the loader derives from `frameC9w` under the all-failing parser
`parse0`: the year defaults to 2020 and word counts are computed. -/
def frameC9wOut : Frame :=
  { cols := ["title", "journal", "abstract", "publish_time", "publication_year",
             "title_word_count", "abstract_word_count"],
    rows := [{ title := some "t", journal := some "J", abstract := some "a",
               publish_time := some "2021-05-01", publication_year := some 2020,
               title_word_count := some 1, abstract_word_count := some 1 }] }

/-! ## Helper lemmas -/

lemma betweenYear_eq_true_iff (r : Row) (lo hi : Int) :
    betweenYear r lo hi = true ↔ ∃ y, r.publication_year = some y ∧ lo ≤ y ∧ y ≤ hi := by
  unfold betweenYear
  cases h : r.publication_year with
  | none => simp
  | some y => simp [h]

lemma filterData_cols (f : Frame) (lo hi : Int) (sel : String) :
    (filterData f lo hi sel).cols = f.cols := by
  unfold filterData
  split <;> rfl

lemma mem_insertSorted {x a : String} {l : List String} :
    x ∈ insertSorted a l ↔ x = a ∨ x ∈ l := by
  induction l with
  | nil => simp [insertSorted]
  | cons y ys ih =>
    unfold insertSorted
    by_cases h : a < y
    · simp [h]
    · simp [h, ih]
      tauto

lemma mem_sortStrings {x : String} {l : List String} :
    x ∈ sortStrings l ↔ x ∈ l := by
  induction l with
  | nil => simp [sortStrings]
  | cons y ys ih => simp [sortStrings, mem_insertSorted, ih]

lemma mem_addCol {c c' : String} {cs : List String} :
    c ∈ addCol cs c' ↔ c ∈ cs ∨ c = c' := by
  unfold addCol
  by_cases h : c' ∈ cs
  · simp only [h, if_true]
    exact ⟨Or.inl, fun hc => hc.elim id (fun e => e ▸ h)⟩
  · simp [h, List.mem_append]

lemma convertDates_cols (p : String → Option Int) (f : Frame) :
    (convertDates p f).cols =
      if "publish_time" ∈ f.cols then addCol f.cols "publication_year" else f.cols := by
  unfold convertDates
  split <;> rfl

lemma mem_convertDates_cols (p : String → Option Int) (f : Frame) {c : String}
    (hne : c ≠ "publication_year") :
    c ∈ (convertDates p f).cols ↔ c ∈ f.cols := by
  rw [convertDates_cols]
  by_cases h : "publish_time" ∈ f.cols <;> simp [h, mem_addCol, hne]

lemma required_check_iff (p : String → Option Int) (f : Frame) :
    (requiredColumns.all (fun c => decide (c ∈ (convertDates p f).cols)) = true) ↔
      ("title" ∈ f.cols ∧ "journal" ∈ f.cols ∧ "abstract" ∈ f.cols) := by
  simp only [requiredColumns, List.all_cons, List.all_nil, Bool.and_true, Bool.and_eq_true,
    decide_eq_true_eq]
  rw [mem_convertDates_cols p f (by decide), mem_convertDates_cols p f (by decide),
    mem_convertDates_cols p f (by decide)]

lemma processFrame_eq_some (p : String → Option Int) (f out : Frame) :
    processFrame p f = some out ↔
      f.rows ≠ [] ∧ ("title" ∈ f.cols ∧ "journal" ∈ f.cols ∧ "abstract" ∈ f.cols) ∧
        out = addAbstractCounts (addTitleCounts (convertDates p f)) := by
  unfold processFrame
  by_cases h1 : f.rows.isEmpty
  · have : f.rows = [] := by simpa [List.isEmpty_iff] using h1
    simp [h1, this]
  · have hne : f.rows ≠ [] := by simpa [List.isEmpty_iff] using h1
    by_cases h2 : requiredColumns.all (fun c => decide (c ∈ (convertDates p f).cols)) = true
    · simp [h1, h2, hne, (required_check_iff p f).mp h2, eq_comm]
    · have h2' : ¬("title" ∈ f.cols ∧ "journal" ∈ f.cols ∧ "abstract" ∈ f.cols) :=
        fun hc => h2 ((required_check_iff p f).mpr hc)
      simp [h1, h2, hne, h2']

lemma processFrame_isSome (p : String → Option Int) (f : Frame) :
    (processFrame p f).isSome = true ↔
      (f.rows ≠ [] ∧ "title" ∈ f.cols ∧ "journal" ∈ f.cols ∧ "abstract" ∈ f.cols) := by
  constructor
  · intro h
    obtain ⟨out, hout⟩ := Option.isSome_iff_exists.mp h
    have := (processFrame_eq_some p f out).mp hout
    tauto
  · intro h
    rw [Option.isSome_iff_exists]
    exact ⟨_, (processFrame_eq_some p f _).mpr ⟨h.1, ⟨h.2.1, h.2.2.1, h.2.2.2⟩, rfl⟩⟩

lemma convertDates_rows_length (p : String → Option Int) (f : Frame) :
    (convertDates p f).rows.length = f.rows.length := by
  unfold convertDates
  split <;> simp

lemma addTitleCounts_rows_length (f : Frame) :
    (addTitleCounts f).rows.length = f.rows.length := by
  unfold addTitleCounts
  split <;> simp

lemma addAbstractCounts_rows_length (f : Frame) :
    (addAbstractCounts f).rows.length = f.rows.length := by
  unfold addAbstractCounts
  split <;> simp

lemma processFrame_rows_length (p : String → Option Int) (f out : Frame)
    (h : processFrame p f = some out) : out.rows.length = f.rows.length := by
  obtain ⟨-, -, rfl⟩ := (processFrame_eq_some p f out).mp h
  rw [addAbstractCounts_rows_length, addTitleCounts_rows_length, convertDates_rows_length]

lemma filterData_rows (f : Frame) (lo hi : Int) (sel : String) :
    (filterData f lo hi sel).rows =
      if sel ≠ "All Journals" then
        (f.rows.filter (fun r => betweenYear r lo hi)).filter
          (fun r => decide (r.journal = some sel))
      else f.rows.filter (fun r => betweenYear r lo hi) := by
  unfold filterData
  split <;> simp_all

lemma processFrame_eq_none (p : String → Option Int) (f : Frame) :
    processFrame p f = none ↔
      ¬(f.rows ≠ [] ∧ "title" ∈ f.cols ∧ "journal" ∈ f.cols ∧ "abstract" ∈ f.cols) := by
  constructor
  · intro h hc
    have := (processFrame_isSome p f).mpr hc
    rw [h] at this
    simp at this
  · intro h
    cases hq : processFrame p f with
    | none => rfl
    | some out => exact absurd ((processFrame_isSome p f).mp (by simp [hq])) h

/-! ## Claim theorems -/

/-- C1: the filtered subset consists of exactly those records of the dataset
whose `publication_year` lies in the inclusive range `[lo, hi]` and, when a
specific journal is selected, whose journal equals that name; under the
`'All Journals'` sentinel the journal condition is vacuous. -/
theorem mem_filterData_iff (f : Frame) (lo hi : Int) (sel : String) (r : Row) :
    r ∈ (filterData f lo hi sel).rows ↔
      r ∈ f.rows ∧ (∃ y, r.publication_year = some y ∧ lo ≤ y ∧ y ≤ hi) ∧
        (sel ≠ "All Journals" → r.journal = some sel) := by
  rw [filterData_rows]
  by_cases hs : sel = "All Journals"
  · simp [hs, List.mem_filter, betweenYear_eq_true_iff]
  · simp only [hs, ne_eq, not_false_eq_true, if_true, List.mem_filter, decide_eq_true_eq,
      betweenYear_eq_true_iff, and_assoc]
    tauto

theorem mem_filterData_iff_witness :
    demoRow0 ∈ (filterData createDemoData 2020 2021 "Medical Journal").rows :=
  (mem_filterData_iff createDemoData 2020 2021 "Medical Journal" demoRow0).mpr
    ⟨by decide, ⟨2020, rfl, by decide, by decide⟩, fun _ => rfl⟩

/-- C10: a record with a NaN journal passes the sentinel filter whenever its
year is in range, is excluded by every specific journal selection, and the
dropdown's selectable names past the sentinel are exactly (non-null) journal
values occurring in the dataset. -/
theorem null_journal_handling (f : Frame) (lo hi : Int) (sel : String) (r : Row) :
    (r ∈ f.rows → r.journal = none → betweenYear r lo hi = true →
        r ∈ (filterData f lo hi "All Journals").rows) ∧
    (sel ≠ "All Journals" → r.journal = none →
        r ∉ (filterData f lo hi sel).rows) ∧
    (∀ s, s ∈ journalOptions f → s ≠ "All Journals" →
        ∃ r2 ∈ f.rows, r2.journal = some s) := by
  refine ⟨?_, ?_, ?_⟩
  · intro hmem hj hb
    rw [filterData_rows]
    simp [List.mem_filter, hmem, hb]
  · intro hs hj hmem
    rw [filterData_rows] at hmem
    simp [hs, List.mem_filter, hj] at hmem
  · intro s hs hne
    simp only [journalOptions, List.mem_cons, mem_sortStrings, List.mem_dedup,
      List.mem_filterMap] at hs
    rcases hs with rfl | ⟨r2, hr2, hj2⟩
    · exact absurd rfl hne
    · exact ⟨r2, hr2, hj2⟩

theorem null_journal_handling_witness :
    rowC10 ∈ (filterData frameC10 2020 2020 "All Journals").rows ∧
    rowC10 ∉ (filterData frameC10 2020 2020 "Medical Journal").rows :=
  ⟨(null_journal_handling frameC10 2020 2020 "Medical Journal" rowC10).1
      (by decide) rfl (by decide),
   (null_journal_handling frameC10 2020 2020 "Medical Journal" rowC10).2.1
      (by decide) rfl⟩

/-- C5: selecting a journal that occurs in no record yields an empty filtered
subset (no failure is possible: every operation is total), and on any empty
subset both mean word-count metrics are NaN, rendered as the non-numeric
placeholder "nan" by `f"{m:.1f}"` instead of raising. -/
theorem absent_journal_metrics (f : Frame) (lo hi : Int) (sel : String)
    (hs : sel ≠ "All Journals") (habs : ∀ r ∈ f.rows, r.journal ≠ some sel) :
    (filterData f lo hi sel).rows = [] ∧
    renderMean (avgTitleWords (filterData f lo hi sel)) = "nan" ∧
    renderMean (avgAbstractWords (filterData f lo hi sel)) = "nan" ∧
    (∀ g : Frame, g.rows = [] →
        renderMean (avgTitleWords g) = "nan" ∧ renderMean (avgAbstractWords g) = "nan") := by
  have hgen : ∀ g : Frame, g.rows = [] →
      renderMean (avgTitleWords g) = "nan" ∧ renderMean (avgAbstractWords g) = "nan" := by
    intro g hg
    constructor <;> simp [avgTitleWords, avgAbstractWords, hg, colMean, renderMean]
  have hempty : (filterData f lo hi sel).rows = [] := by
    rw [filterData_rows, if_pos hs]
    refine List.filter_eq_nil_iff.mpr ?_
    intro x hx
    simp [habs x (List.mem_of_mem_filter hx)]
  exact ⟨hempty, (hgen _ hempty).1, (hgen _ hempty).2, hgen⟩

theorem absent_journal_metrics_witness :
    (filterData createDemoData 2020 2022 "Nature").rows = [] ∧
    renderMean (avgTitleWords (filterData createDemoData 2020 2022 "Nature")) = "nan" ∧
    renderMean (avgAbstractWords (filterData createDemoData 2020 2022 "Nature")) = "nan" :=
  ⟨(absent_journal_metrics createDemoData 2020 2022 "Nature" (by decide) (by decide)).1,
   (absent_journal_metrics createDemoData 2020 2022 "Nature" (by decide) (by decide)).2.1,
   (absent_journal_metrics createDemoData 2020 2022 "Nature" (by decide) (by decide)).2.2.1⟩

/-- C8: the loader reads the first existing candidate path in the fixed
order home-Desktop, current directory, home-Documents, each carrying the
fixed file name `cleaned_cord19_data.csv`. -/
theorem findDataFile_priority (ex : String → Bool) (home cwd : String) :
    (ex (desktopPath home) = true →
        findDataFile ex home cwd = some (desktopPath home)) ∧
    (ex (desktopPath home) = false → ex (cwdPath cwd) = true →
        findDataFile ex home cwd = some (cwdPath cwd)) ∧
    (ex (desktopPath home) = false → ex (cwdPath cwd) = false →
        ex (documentsPath home) = true →
        findDataFile ex home cwd = some (documentsPath home)) ∧
    (ex (desktopPath home) = false → ex (cwdPath cwd) = false →
        ex (documentsPath home) = false →
        findDataFile ex home cwd = none) := by
  refine ⟨?_, ?_, ?_, ?_⟩
  · intro h1
    simp [findDataFile, possiblePaths, List.find?, h1]
  · intro h1 h2
    simp [findDataFile, possiblePaths, List.find?, h1, h2]
  · intro h1 h2 h3
    simp [findDataFile, possiblePaths, List.find?, h1, h2, h3]
  · intro h1 h2 h3
    simp [findDataFile, possiblePaths, List.find?, h1, h2, h3]

theorem findDataFile_priority_witness :
    findDataFile exW "/h" "/h" = some (cwdPath "/h") :=
  (findDataFile_priority exW "/h" "/h").2.1 (by decide) (by decide)

/-- C6: the export serves, under name `filtered_cord19_data.csv` and MIME
type `text/csv`, a CSV whose header line lists exactly the columns
{title, authors, journal, publication_year} present in the dataset (no index
column) and whose data lines are all rows of the filtered subset — one line
per filtered row, not merely the 20-row preview. -/
theorem csv_export_spec (df : Frame) (lo hi : Int) (sel : String) :
    (downloadButton (filterData df lo hi sel)).file_name = "filtered_cord19_data.csv" ∧
    (downloadButton (filterData df lo hi sel)).mime = "text/csv" ∧
    (downloadButton (filterData df lo hi sel)).payload =
      String.intercalate "\n" (csvLinesOf (filterData df lo hi sel)) ++ "\n" ∧
    (csvLinesOf (filterData df lo hi sel)).length =
      (filterData df lo hi sel).rows.length + 1 ∧
    (csvLinesOf (filterData df lo hi sel)).head? =
      some (String.intercalate ","
        ((["title", "authors", "journal", "publication_year"].filter
            (fun c => decide (c ∈ df.cols))).map csvField)) ∧
    List.tail (csvLinesOf (filterData df lo hi sel)) =
      (filterData df lo hi sel).rows.map (csvLine (displayColumnsOf (filterData df lo hi sel))) := by
  refine ⟨rfl, rfl, rfl, ?_, ?_, rfl⟩
  · simp [csvLinesOf]
  · simp [csvLinesOf, csvHeader, displayColumnsOf, filterData_cols]

lemma map_proj_of_update {α : Type} (φ : Row → α) (u : Row → Row)
    (hc : ∀ r, φ (u r) = φ r) (l : List Row) :
    (l.map u).map φ = l.map φ := by
  rw [List.map_map]
  exact List.map_congr_left (fun a _ => hc a)

lemma convertDates_map_keep {α : Type} (p : String → Option Int) (g : Frame) (φ : Row → α)
    (hφ : ∀ r v, φ { r with publication_year := v } = φ r) :
    (convertDates p g).rows.map φ = g.rows.map φ := by
  unfold convertDates
  split
  · exact map_proj_of_update φ _ (fun r => hφ r _) g.rows
  · rfl

lemma addTitleCounts_map_keep {α : Type} (g : Frame) (φ : Row → α)
    (hφ : ∀ r v, φ { r with title_word_count := v } = φ r) :
    (addTitleCounts g).rows.map φ = g.rows.map φ := by
  unfold addTitleCounts
  split
  · rfl
  · exact map_proj_of_update φ _ (fun r => hφ r _) g.rows

lemma addAbstractCounts_map_keep {α : Type} (g : Frame) (φ : Row → α)
    (hφ : ∀ r v, φ { r with abstract_word_count := v } = φ r) :
    (addAbstractCounts g).rows.map φ = g.rows.map φ := by
  unfold addAbstractCounts
  split
  · rfl
  · exact map_proj_of_update φ _ (fun r => hφ r _) g.rows

lemma mem_addTitleCounts_cols (g : Frame) {c : String} (hne : c ≠ "title_word_count") :
    c ∈ (addTitleCounts g).cols ↔ c ∈ g.cols := by
  unfold addTitleCounts
  split
  · exact Iff.rfl
  · simp [mem_addCol, hne]

lemma addTitleCounts_rows_of_mem (g : Frame) (h : "title_word_count" ∈ g.cols) :
    (addTitleCounts g).rows = g.rows := by
  unfold addTitleCounts
  rw [if_pos h]

lemma addTitleCounts_map_twc_of_not_mem (g : Frame) (h : "title_word_count" ∉ g.cols) :
    (addTitleCounts g).rows.map (fun r => r.title_word_count) =
      g.rows.map (fun r => some (Int.ofNat (countTokens (pyStr r.title)))) := by
  unfold addTitleCounts
  rw [if_neg h]
  simp only [List.map_map]
  rfl

lemma addAbstractCounts_rows_of_mem (g : Frame) (h : "abstract_word_count" ∈ g.cols) :
    (addAbstractCounts g).rows = g.rows := by
  unfold addAbstractCounts
  rw [if_pos h]

lemma addAbstractCounts_map_awc_of_not_mem (g : Frame) (h : "abstract_word_count" ∉ g.cols) :
    (addAbstractCounts g).rows.map (fun r => r.abstract_word_count) =
      g.rows.map (fun r => some (Int.ofNat (countTokens (pyStr r.abstract)))) := by
  unfold addAbstractCounts
  rw [if_neg h]
  simp only [List.map_map]
  rfl

lemma listMinI_eq_none {l : List Int} (h : listMinI l = none) : l = [] := by
  cases l with
  | nil => rfl
  | cons a t =>
    unfold listMinI at h
    cases ht : listMinI t with
    | none =>
      rw [ht] at h
      simp at h
    | some m =>
      rw [ht] at h
      simp at h

lemma listMaxI_eq_none {l : List Int} (h : listMaxI l = none) : l = [] := by
  cases l with
  | nil => rfl
  | cons a t =>
    unfold listMaxI at h
    cases ht : listMaxI t with
    | none =>
      rw [ht] at h
      simp at h
    | some m =>
      rw [ht] at h
      simp at h

lemma listMinI_le (l : List Int) (m : Int) (hm : listMinI l = some m) :
    ∀ x ∈ l, m ≤ x := by
  induction l generalizing m with
  | nil => simp [listMinI] at hm
  | cons a t ih =>
    intro x hx
    unfold listMinI at hm
    cases ht : listMinI t with
    | none =>
      rw [ht] at hm
      simp only [Option.some.injEq] at hm
      have htnil := listMinI_eq_none ht
      subst htnil
      simp only [List.mem_cons, List.not_mem_nil, or_false] at hx
      subst hx
      exact le_of_eq hm.symm
    | some m2 =>
      rw [ht] at hm
      simp only [Option.some.injEq] at hm
      rcases List.mem_cons.mp hx with rfl | hxt
      · exact hm ▸ min_le_left _ _
      · exact le_trans (hm ▸ min_le_right _ _) (ih m2 ht x hxt)

lemma listMaxI_ge (l : List Int) (m : Int) (hm : listMaxI l = some m) :
    ∀ x ∈ l, x ≤ m := by
  induction l generalizing m with
  | nil => simp [listMaxI] at hm
  | cons a t ih =>
    intro x hx
    unfold listMaxI at hm
    cases ht : listMaxI t with
    | none =>
      rw [ht] at hm
      simp only [Option.some.injEq] at hm
      have htnil := listMaxI_eq_none ht
      subst htnil
      simp only [List.mem_cons, List.not_mem_nil, or_false] at hx
      subst hx
      exact le_of_eq hm
    | some m2 =>
      rw [ht] at hm
      simp only [Option.some.injEq] at hm
      rcases List.mem_cons.mp hx with rfl | hxt
      · exact hm ▸ le_max_left _ _
      · exact le_trans (ih m2 ht x hxt) (hm ▸ le_max_right _ _)

/-- C2: `load_data` returns no dataset exactly when no candidate path
exists, or reading the found file raises (any load-time exception is caught
and converted to `None` — in this embedding every function is total, so
nothing can propagate), or the parsed file has zero rows, or one of the
columns title/journal/abstract is absent; in every such case `main`
proceeds with the fixed 3-record demo dataset. -/
theorem loadData_failure_modes (ex : String → Bool)
    (readCsv : String → Except String Frame) (parse : String → Option Int)
    (home cwd : String) :
    (loadData ex readCsv parse home cwd = none ↔
      findDataFile ex home cwd = none ∨
      ∃ p, findDataFile ex home cwd = some p ∧
        ((∃ e, readCsv p = Except.error e) ∨
         ∃ df, readCsv p = Except.ok df ∧
            (df.rows = [] ∨ "title" ∉ df.cols ∨ "journal" ∉ df.cols ∨
              "abstract" ∉ df.cols))) ∧
    (loadData ex readCsv parse home cwd = none →
        mainDataFrame ex readCsv parse home cwd = createDemoData) ∧
    createDemoData.rows.length = 3 := by
  refine ⟨?_, ?_, rfl⟩
  · cases hf : findDataFile ex home cwd with
    | none => simp [loadData, hf]
    | some p =>
      cases hr : readCsv p with
      | error e =>
        have hL : loadData ex readCsv parse home cwd = none := by
          simp [loadData, hf, hr]
        constructor
        · intro _
          exact Or.inr ⟨p, rfl, Or.inl ⟨e, hr⟩⟩
        · intro _
          exact hL
      | ok df =>
        have hL : loadData ex readCsv parse home cwd = processFrame parse df := by
          simp [loadData, hf, hr]
        rw [hL, processFrame_eq_none]
        constructor
        · intro hn
          refine Or.inr ⟨p, rfl, Or.inr ⟨df, hr, ?_⟩⟩
          tauto
        · rintro (hc | ⟨p2, hp2, hrest⟩)
          · exact absurd hc (by simp)
          · injection hp2 with hpe
            subst hpe
            rcases hrest with ⟨e, he⟩ | ⟨df2, hdf2, hbad⟩
            · rw [hr] at he
              exact absurd he (by simp)
            · rw [hr] at hdf2
              injection hdf2 with hde
              subst hde
              tauto
  · intro h
    simp [mainDataFrame, h]

theorem loadData_failure_modes_witness :
    mainDataFrame exNone readCsv0 parse0 "/h" "/h" = createDemoData :=
  (loadData_failure_modes exNone readCsv0 parse0 "/h" "/h").2.1 (by decide)

/-- C3: the loader computes a word-count column only when that column is
absent from the file, as the number of whitespace-separated tokens of the
string form of the field; a NaN title/abstract stringifies to "nan" and
counts as 1 token, and the title "COVID-19 Vaccine Efficacy Study" counts
as 4 tokens. -/
theorem wordCount_derivation (parse : String → Option Int) (f out : Frame)
    (h : processFrame parse f = some out) :
    ("title_word_count" ∉ f.cols →
        out.rows.map (fun r => r.title_word_count) =
          f.rows.map (fun r => some (Int.ofNat (countTokens (pyStr r.title))))) ∧
    ("title_word_count" ∈ f.cols →
        out.rows.map (fun r => r.title_word_count) =
          f.rows.map (fun r => r.title_word_count)) ∧
    ("abstract_word_count" ∉ f.cols →
        out.rows.map (fun r => r.abstract_word_count) =
          f.rows.map (fun r => some (Int.ofNat (countTokens (pyStr r.abstract))))) ∧
    ("abstract_word_count" ∈ f.cols →
        out.rows.map (fun r => r.abstract_word_count) =
          f.rows.map (fun r => r.abstract_word_count)) ∧
    countTokens (pyStr none) = 1 ∧
    countTokens (pyStr (some "COVID-19 Vaccine Efficacy Study")) = 4 := by
  obtain ⟨-, -, rfl⟩ := (processFrame_eq_some parse f out).mp h
  refine ⟨?_, ?_, ?_, ?_, by decide, by decide⟩
  · intro ht
    have ht1 : "title_word_count" ∉ (convertDates parse f).cols :=
      fun hc => ht ((mem_convertDates_cols parse f (by decide)).mp hc)
    rw [addAbstractCounts_map_keep _ (fun r => r.title_word_count) (fun r v => rfl),
      addTitleCounts_map_twc_of_not_mem _ ht1,
      convertDates_map_keep parse f
        (fun r => some (Int.ofNat (countTokens (pyStr r.title)))) (fun r v => rfl)]
  · intro ht
    have ht1 : "title_word_count" ∈ (convertDates parse f).cols :=
      (mem_convertDates_cols parse f (by decide)).mpr ht
    rw [addAbstractCounts_map_keep _ (fun r => r.title_word_count) (fun r v => rfl),
      addTitleCounts_rows_of_mem _ ht1,
      convertDates_map_keep parse f (fun r => r.title_word_count) (fun r v => rfl)]
  · intro ha
    have ha1 : "abstract_word_count" ∉ (addTitleCounts (convertDates parse f)).cols :=
      fun hc => ha ((mem_convertDates_cols parse f (by decide)).mp
        ((mem_addTitleCounts_cols _ (by decide)).mp hc))
    rw [addAbstractCounts_map_awc_of_not_mem _ ha1,
      addTitleCounts_map_keep _
        (fun r => some (Int.ofNat (countTokens (pyStr r.abstract)))) (fun r v => rfl),
      convertDates_map_keep parse f
        (fun r => some (Int.ofNat (countTokens (pyStr r.abstract)))) (fun r v => rfl)]
  · intro ha
    have ha1 : "abstract_word_count" ∈ (addTitleCounts (convertDates parse f)).cols :=
      (mem_addTitleCounts_cols _ (by decide)).mpr
        ((mem_convertDates_cols parse f (by decide)).mpr ha)
    rw [addAbstractCounts_rows_of_mem _ ha1,
      addTitleCounts_map_keep _ (fun r => r.abstract_word_count) (fun r v => rfl),
      convertDates_map_keep parse f (fun r => r.abstract_word_count) (fun r v => rfl)]

theorem wordCount_derivation_witness :
    frameC4out.rows.map (fun r => r.title_word_count) =
      frameC4.rows.map (fun r => some (Int.ofNat (countTokens (pyStr r.title)))) :=
  (wordCount_derivation parse0 frameC4 frameC4out (by decide)).1 (by decide)

/-- C4 (counterexample): the loader accepts — rather than rejects — a
dataset whose single record has a NaN journal: validation is per-column,
not per-record.  `frameC4` passes `processFrame` and the NaN journal
survives into the working dataset. -/
theorem loader_accepts_null_journal_record :
    processFrame parse0 frameC4 = some frameC4out ∧
    frameC4out.rows.map (fun r => r.journal) = [none] ∧
    frameC4out.rows.length = frameC4.rows.length := by decide

/-- C4 (amended): the loader checks only that the dataset is non-empty and
that the columns title/journal/abstract exist; it never inspects cell
values, and every row — including rows with NaN fields — is retained
(row count preserved). -/
theorem loadValidation_column_level_only (parse : String → Option Int) (f : Frame) :
    ((processFrame parse f).isSome = true ↔
      (f.rows ≠ [] ∧ "title" ∈ f.cols ∧ "journal" ∈ f.cols ∧ "abstract" ∈ f.cols)) ∧
    (∀ out, processFrame parse f = some out → out.rows.length = f.rows.length) :=
  ⟨processFrame_isSome parse f, fun out ho => processFrame_rows_length parse f out ho⟩

theorem loadValidation_column_level_only_witness :
    (processFrame parse0 createDemoData).isSome = true :=
  (loadValidation_column_level_only parse0 createDemoData).1.mpr
    ⟨by decide, by decide, by decide, by decide⟩

/-- C7 (counterexample): a loadable dataset containing a NaN
`publication_year` cell: min and max over the numeric cells are both 2020,
yet the full-range sentinel filter keeps 1 of its 2 rows, because
`between` is false on NaN. -/
theorem fullRange_filter_counterexample :
    processFrame parse0 frameC7 = some frameC7 ∧
    minYearOf frameC7 = some 2020 ∧
    maxYearOf frameC7 = some 2020 ∧
    (filterData frameC7 2020 2020 "All Journals").rows.length = 1 ∧
    frameC7.rows.length = 2 := by decide

/-- C7 (amended): for every dataset in which each record's
`publication_year` is non-null, filtering by the full
`[min_year, max_year]` range under the `'All Journals'` sentinel preserves
the row count. -/
theorem fullRange_preserves_count (f : Frame) (lo hi : Int)
    (hall : ∀ r ∈ f.rows, (r.publication_year).isSome = true)
    (hlo : minYearOf f = some lo) (hhi : maxYearOf f = some hi) :
    (filterData f lo hi "All Journals").rows.length = f.rows.length := by
  rw [filterData_rows]
  rw [if_neg (by simp : ¬("All Journals" ≠ "All Journals"))]
  have hself : f.rows.filter (fun r => betweenYear r lo hi) = f.rows := by
    refine List.filter_eq_self.mpr ?_
    intro r hr
    obtain ⟨y, hy⟩ := Option.isSome_iff_exists.mp (hall r hr)
    have hymem : y ∈ f.rows.filterMap (fun r2 => r2.publication_year) :=
      List.mem_filterMap.mpr ⟨r, hr, hy⟩
    have h1 : lo ≤ y := listMinI_le _ _ hlo y hymem
    have h2 : y ≤ hi := listMaxI_ge _ _ hhi y hymem
    simp [betweenYear, hy, h1, h2]
  rw [hself]

theorem fullRange_preserves_count_witness :
    (filterData createDemoData 2020 2022 "All Journals").rows.length =
      createDemoData.rows.length :=
  fullRange_preserves_count createDemoData 2020 2022 (by decide) (by decide) (by decide)

/-- C9 (counterexample): a loadable dataset with a `publication_year`
column but no `publish_time` column: its record has no publish_time, yet
its publication_year stays 1999 — it is neither derived nor defaulted to
2020, contradicting the claim read over every loaded record. -/
theorem year_without_publish_time_counterexample :
    processFrame parse0 frameC9 = some frameC9 ∧
    "publish_time" ∉ frameC9.cols ∧
    frameC9.rows.map (fun r => r.publish_time) = [none] ∧
    frameC9.rows.map (fun r => r.publication_year) = [some 1999] := by decide

/-- C9 (amended): when the file has a `publish_time` column, every loaded
record's `publication_year` is the integer year parsed from its
publish_time, defaulting to 2020 when the cell is missing or the parse
fails; when the `publish_time` column is absent, every record's
`publication_year` is left exactly as supplied by the file; and the load
succeeds irrespective of any parse outcome. -/
theorem year_derivation (parse : String → Option Int) (f out : Frame)
    (h : processFrame parse f = some out) :
    ("publish_time" ∈ f.cols →
        out.rows.map (fun r => r.publication_year) =
          f.rows.map (fun r => some (deriveYear parse r.publish_time))) ∧
    ("publish_time" ∉ f.cols →
        out.rows.map (fun r => r.publication_year) =
          f.rows.map (fun r => r.publication_year)) ∧
    deriveYear parse none = 2020 ∧
    (∀ s, parse s = none → deriveYear parse (some s) = 2020) ∧
    (∀ parse2, (processFrame parse2 f).isSome = true) := by
  obtain ⟨hne, hcols, rfl⟩ := (processFrame_eq_some parse f out).mp h
  refine ⟨?_, ?_, rfl, ?_, ?_⟩
  · intro hpt
    rw [addAbstractCounts_map_keep _ (fun r => r.publication_year) (fun r v => rfl),
      addTitleCounts_map_keep _ (fun r => r.publication_year) (fun r v => rfl)]
    unfold convertDates
    rw [if_pos hpt, List.map_map]
    rfl
  · intro hpt
    rw [addAbstractCounts_map_keep _ (fun r => r.publication_year) (fun r v => rfl),
      addTitleCounts_map_keep _ (fun r => r.publication_year) (fun r v => rfl)]
    unfold convertDates
    rw [if_neg hpt]
  · intro s hs
    unfold deriveYear
    simp [hs]
  · intro parse2
    rw [processFrame_isSome]
    exact ⟨hne, hcols.1, hcols.2.1, hcols.2.2⟩

theorem year_derivation_witness :
    (frameC9wOut.rows.map (fun r => r.publication_year) =
      frameC9w.rows.map (fun r => some (deriveYear parse0 r.publish_time))) ∧
    (frameC9.rows.map (fun r => r.publication_year) =
      frameC9.rows.map (fun r => r.publication_year)) :=
  ⟨(year_derivation parse0 frameC9w frameC9wOut (by decide)).1 (by decide),
   (year_derivation parse0 frameC9 frameC9 (by decide)).2.1 (by decide)⟩
